import Mathlib

/-!
Verification development for the bugwarrior Kanboard service
(src/bugwarrior/services/kanboard.py).

The Python module is embedded shallowly:

* remote JSON records (boards, columns, cards, comments) become Lean
  structures; a dictionary key that may be missing in a record relevant to
  the claims (a column record lacking a name key) becomes an Option field;
* the JSON-RPC client is a structure of functions (one field per remote
  method used by the module), so theorems quantify over remote behaviour;
* the generator pipeline issues() becomes a function returning the list of
  yielded records together with an optional Python error (the prefix that a
  consumer of the generator would observe before an exception);
* host-application helpers that are not part of this repository
  (Issue.parse_date, IssueService.build_annotations, the Jinja2 template
  engine, the base-class validator) are modelled from the specification, as
  marked in their doc comments.
-/

/-- One label attached to a card, a JSON object with a name key. -/
structure Label where
  name : String
deriving DecidableEq, Repr

/-- A Kanboard card (or subtask) record with the keys the module reads. -/
structure CardRecord where
  id : Nat
  name : String
  shortLink : String
  shortUrl : String
  url : String
  due : Option String
  labels : List Label
deriving DecidableEq, Repr

/-- A board (project) record. -/
structure BoardRecord where
  id : Nat
  name : String
deriving DecidableEq, Repr

/-- A column (list) record.  get_lists filters on the title key; issues()
reads the name key, which a remote column record may lack, hence Option. -/
structure ColumnRecord where
  id : Nat
  title : String
  name : Option String
deriving DecidableEq, Repr

/-- The memberCreator object of a comment. -/
structure MemberCreator where
  username : String
deriving DecidableEq, Repr

/-- The data object of a comment. -/
structure CommentData where
  text : String
deriving DecidableEq, Repr

/-- A comment record. -/
structure Comment where
  memberCreator : MemberCreator
  data : CommentData
deriving DecidableEq, Repr

/-- A Python value passed as the task_id argument of a remote call: the
module passes either a bare id or (for subtasks) a whole card record. -/
inductive RpcArg where
  | nat (n : Nat)
  | record (c : CardRecord)
deriving DecidableEq, Repr

/-- A Python runtime error relevant to the embedded code paths. -/
inductive PyError where
  | keyError (key : String)
  | attributeError
deriving DecidableEq, Repr

/-- The service configuration keys the module reads.  An Option field is an
absent key; include_lists and exclude_lists collapse the absent and the
empty configuration, which the code treats identically (both falsy). -/
structure ServiceConfig where
  api_key : Option String
  token : Option String
  base_url : Option String
  include_boards : Option (List Nat)
  include_lists : List String
  exclude_lists : List String
  import_labels_as_tags : Option Bool
  label_template : Option String
deriving DecidableEq, Repr

/-- The origin dictionary handed to KanboardIssue via get_service_metadata:
both keys are always present there, with their defaults applied. -/
structure Origin where
  import_labels_as_tags : Bool
  label_template : String
deriving DecidableEq, Repr

/-- The extra dictionary of an issue: boardname and listname from the
enclosing column, and the annotations key added by update_extra (absent
until then, hence Option; to_taskwarrior reads it with default []). -/
structure Extra where
  boardname : String
  listname : String
  annotations : Option (List String)
deriving DecidableEq, Repr

/-- The normalized output task record built by to_taskwarrior.  tags is an
Option: none means the tags key is absent from the dictionary. -/
structure TaskRecord where
  project : String
  priority : String
  due : Option String
  kanboardcard : String
  kanboardcardid : Nat
  kanboardboard : String
  kanboardlist : String
  kanboardshortlink : String
  kanboardshorturl : String
  kanboardurl : String
  annotations : List String
  tags : Option (List String)
deriving DecidableEq, Repr

/-- The Kanboard client object constructed by connect: base URL, endpoint
name, and the api token (None when the token key is absent). -/
structure KanboardClient where
  url : String
  endpoint : String
  api_token : Option String
deriving DecidableEq, Repr

/-- The remote server as seen through the client: one field per JSON-RPC
method the module calls. -/
structure Remote where
  get_all_projects : List BoardRecord
  get_project_by_id : Nat → BoardRecord
  get_columns : Nat → List ColumnRecord
  get_all_tasks : Nat → Nat → List CardRecord
  get_all_comments : RpcArg → List Comment
  get_all_subtasks : RpcArg → List CardRecord

/- Character-level string helpers, written with structural recursion so that
the kernel can evaluate them inside decide and rfl proofs. -/

/-- Whether the first list is a prefix of the second (Python str.startswith
on the underlying characters). -/
def beginsWith : List Char → List Char → Bool
  | [], _ => true
  | _ :: _, [] => false
  | a :: as, b :: bs => a == b && beginsWith as bs

/-- Whether pat occurs as a contiguous subsequence of s. -/
def containsSeq (pat : List Char) : List Char → Bool
  | [] => beginsWith pat []
  | c :: rest => beginsWith pat (c :: rest) || containsSeq pat rest

/-- Split a character list on a separator character. -/
def splitOnChar (sep : Char) : List Char → List (List Char)
  | [] => [[]]
  | c :: rest =>
    match splitOnChar sep rest with
    | [] => if c == sep then [[], []] else [[c]]
    | h :: t => if c == sep then [] :: h :: t else (c :: h) :: t

/-- The space character. -/
def spaceChar : Char := Char.ofNat 32

/-- The single-quote character. -/
def squoteChar : Char := Char.ofNat 39

/-- The comma character. -/
def commaChar : Char := Char.ofNat 44

/-- The pipe character. -/
def pipeChar : Char := Char.ofNat 124

/-- The opening curly bracket. -/
def lcurl : Char := Char.ofNat 123

/-- The closing curly bracket. -/
def rcurl : Char := Char.ofNat 125

/-- Strip leading and trailing spaces. -/
def trimChars (s : List Char) : List Char :=
  ((s.dropWhile (fun c => c == spaceChar)).reverse.dropWhile
    (fun c => c == spaceChar)).reverse

/-- Strip one matching pair of surrounding single quotes. -/
def unquote (s : List Char) : List Char :=
  match s with
  | c :: rest =>
    if c == squoteChar && rest.getLast? == some squoteChar then rest.dropLast
    else c :: rest
  | [] => []

/-- Replace every occurrence of pat by repl, scanning left to right; fuel
bounds the recursion so that the definition is structural. -/
def replaceFuel (pat repl : List Char) : Nat → List Char → List Char
  | 0, s => s
  | _ + 1, [] => []
  | n + 1, c :: rest =>
    if beginsWith pat (c :: rest) && !pat.isEmpty then
      repl ++ replaceFuel pat repl n (List.drop (pat.length - 1) rest)
    else c :: replaceFuel pat repl n rest

/-- Replace every occurrence of pat by repl in s. -/
def replaceChars (pat repl s : List Char) : List Char :=
  replaceFuel pat repl s.length s

/-- Modelled from the spec: one Jinja2 filter application, supporting the
replace filter used by the default label template.  The Jinja2 engine is an
external library, not part of this repository. -/
def applyFilter (f v : List Char) : List Char :=
  let f := trimChars f
  if beginsWith "replace(".data f && f.getLast? == some (Char.ofNat 41) then
    let args := (f.drop 8).dropLast
    match splitOnChar commaChar args with
    | [a, b] => replaceChars (unquote (trimChars a)) (unquote (trimChars b)) v
    | _ => v
  else v

/-- Modelled from the spec: Jinja2 variable resolution.  The label keyword
argument shadows the context; an undefined variable renders as empty. -/
def evalVar (ctx : List (String × String)) (label : String)
    (nm : List Char) : List Char :=
  if nm == "label".data then label.data
  else ((ctx.lookup (String.mk nm)).getD "").data

/-- Modelled from the spec: evaluation of one Jinja2 expression of the form
variable|filter|...|filter. -/
def evalExpr (ctx : List (String × String)) (label : String)
    (e : List Char) : List Char :=
  match splitOnChar pipeChar e with
  | [] => []
  | v :: fs => fs.foldl (fun acc f => applyFilter f acc) (evalVar ctx label (trimChars v))

/-- Modelled from the spec: the Jinja2 template scanner.  Literal text is
copied; a doubly-curly-bracketed expression is evaluated.  Fuel bounds the
recursion (one unit per consumed character). -/
def renderLoop (ctx : List (String × String)) (label : String) :
    Nat → List Char → List Char
  | 0, _ => []
  | _ + 1, [] => []
  | _ + 1, [c] => [c]
  | n + 1, c :: d :: rest =>
    if c == lcurl && d == lcurl then
      match splitAtClose rest with
      | some (e, r) => evalExpr ctx label e ++ renderLoop ctx label n r
      | none => c :: d :: rest
    else c :: renderLoop ctx label n (d :: rest)
where
  /-- Split at the first closing pair of curly brackets. -/
  splitAtClose : List Char → Option (List Char × List Char)
    | [] => none
    | [_] => none
    | c :: d :: rest =>
      if c == rcurl && d == rcurl then some ([], rest)
      else
        match splitAtClose (d :: rest) with
        | none => none
        | some (e, r) => some (c :: e, r)

/-- Modelled from the spec: Jinja2 Template(tmpl).render(ctx, label=label),
an external library.  Supports literal text, variable lookup with the label
binding shadowing the context, and the replace filter: the subset exercised
by the default label template. -/
def renderTemplate (tmpl : String) (ctx : List (String × String))
    (label : String) : String :=
  String.mk (renderLoop ctx label tmpl.data.length tmpl.data)

/-- The default label template of the module. -/
def DEFAULT_LABEL_TEMPLATE : String := "\x7b\x7blabel|replace(' ', '_')\x7d\x7d"

/-- Modelled from the spec: bugwarrior Issue.parse_date, which is not part
of this repository.  Per the spec an absent or invalid due date yields no
due date rather than an error; invalid is modelled as the empty string and
any other string parses to itself. -/
def parse_date (d : Option String) : Option String :=
  d.bind (fun s => if s = "" then none else some s)

/-- Modelled from the spec: bugwarrior IssueService.build_annotations, which
is not part of this repository.  It produces one human-readable string per
(author, text) pair, in order, embedding the author, the text and the
contextual URL. -/
def annotationText (author text url : String) : String :=
  "@" ++ author ++ " - " ++ text ++ " - " ++ url

/-- Modelled from the spec: the external annotation-building helper. -/
def build_annotations (pairs : List (String × String)) (url : String) :
    List String :=
  pairs.map (fun p => annotationText p.1 p.2 url)

/-- The Jinja2 rendering context derived from the in-progress output record
(dictionary values stringified the way the template engine sees them). -/
def twContext (tw : TaskRecord) : List (String × String) :=
  [("project", tw.project),
   ("priority", tw.priority),
   ("due", tw.due.getD ""),
   ("kanboardcard", tw.kanboardcard),
   ("kanboardcardid", toString tw.kanboardcardid),
   ("kanboardboard", tw.kanboardboard),
   ("kanboardlist", tw.kanboardlist),
   ("kanboardshortlink", tw.kanboardshortlink),
   ("kanboardshorturl", tw.kanboardshorturl),
   ("kanboardurl", tw.kanboardurl)]

/-- KanboardIssue.get_tags: render the configured label template once per
label of the record, with the in-progress dictionary as context. -/
def get_tags (origin : Origin) (record : CardRecord) (twdict : TaskRecord) :
    List String :=
  record.labels.map
    (fun l => renderTemplate origin.label_template (twContext twdict) l.name)

/-- Replace the tags entry of a task record. -/
def setTags (t : TaskRecord) (tags : Option (List String)) : TaskRecord :=
  ⟨t.project, t.priority, t.due, t.kanboardcard, t.kanboardcardid,
   t.kanboardboard, t.kanboardlist, t.kanboardshortlink, t.kanboardshorturl,
   t.kanboardurl, t.annotations, tags⟩

/-- The dictionary KanboardIssue.to_taskwarrior builds before the optional
tags entry is added. -/
def baseTw (record : CardRecord) (extra : Extra) : TaskRecord :=
  ⟨extra.boardname, "M", parse_date record.due, record.name, record.id,
   extra.boardname, extra.listname, record.shortLink, record.shortUrl,
   record.url, (extra.annotations).getD [], none⟩

/-- KanboardIssue.to_taskwarrior. -/
def to_taskwarrior (origin : Origin) (record : CardRecord) (extra : Extra) :
    TaskRecord :=
  let twdict := baseTw record extra
  if origin.import_labels_as_tags then
    setTags twdict (some (get_tags origin record twdict))
  else twdict

/-- The error message produced by die in validate_config. -/
def dieMessage (target opt : String) : String :=
  "[" ++ target ++ "] has no \x27kanboard." ++ opt ++ "\x27"

/-- KanboardService.validate_config: the base-class validator (modelled from
the spec: it imposes no kanboard-specific requirement) followed by
check_key, which dies when the api_key key is absent.  No other key is
checked here. -/
def validate_config (cfg : ServiceConfig) (target : String) :
    Except String Unit :=
  if cfg.api_key.isSome then Except.ok ()
  else Except.error (dieMessage target "api_key")

/-- KanboardService.get_service_metadata. -/
def get_service_metadata (cfg : ServiceConfig) : Origin :=
  ⟨(cfg.import_labels_as_tags).getD false,
   (cfg.label_template).getD DEFAULT_LABEL_TEMPLATE⟩

/-- The URL normalization performed inline by connect: the configured base
URL is used unchanged when it starts with the literal http, and prefixed
with the https scheme otherwise. -/
def normalize_url (b : String) : String :=
  if beginsWith "http".data b.data then b else "https://" ++ b

/-- KanboardService.connect.  The base_url key is read and normalized first:
an absent base_url is a None on which str.startswith is accessed, a Python
AttributeError.  The client is then constructed only when none exists yet;
an existing client is kept unchanged. -/
def connect (cfg : ServiceConfig) (conn : Option KanboardClient) :
    Except PyError KanboardClient :=
  match cfg.base_url with
  | none => Except.error PyError.attributeError
  | some b =>
    let url := normalize_url b
    match conn with
    | some c => Except.ok c
    | none => Except.ok ⟨url, "jsonrpc", cfg.token⟩

/-- KanboardService.get_boards: the configured board ids fetched one by one
when include_boards is present, all projects otherwise. -/
def get_boards (cfg : ServiceConfig) (remote : Remote) : List BoardRecord :=
  match cfg.include_boards with
  | some ids => ids.map remote.get_project_by_id
  | none => remote.get_all_projects

/-- KanboardService.get_lists: remote columns of the board, the include
filter (kept titles) applied first when include_lists is non-empty, then the
exclude filter (dropped titles) when exclude_lists is non-empty. -/
def get_lists (cfg : ServiceConfig) (remote : Remote) (board : Nat) :
    List ColumnRecord :=
  let lists := remote.get_columns board
  let lists1 :=
    if cfg.include_lists = [] then lists
    else lists.filter (fun l => decide (l.title ∈ cfg.include_lists))
  if cfg.exclude_lists = [] then lists1
  else lists1.filter (fun l => decide (l.title ∉ cfg.exclude_lists))

/-- KanboardService.get_cards: all tasks of the given list id with the
hard-coded status_id 1 (active), in remote order.  The configuration is in
scope (self) but not consulted. -/
def get_cards (cfg : ServiceConfig) (remote : Remote) (list_id : Nat) :
    List CardRecord :=
  remote.get_all_tasks list_id 1

/-- KanboardService.get_comments: the remote comments of the given task_id
argument, in remote order. -/
def get_comments (remote : Remote) (card_id : RpcArg) : List Comment :=
  remote.get_all_comments card_id

/-- KanboardService.get_subtasks: the remote subtasks of the given task_id
argument, forwarded verbatim, in remote order. -/
def get_subtasks (remote : Remote) (card_id : RpcArg) : List CardRecord :=
  remote.get_all_subtasks card_id

/-- KanboardService.annotations: the comments of the card id formatted by
the external helper, with the short URL of the card as reference. -/
def annotations (remote : Remote) (card_json : CardRecord) : List String :=
  build_annotations
    ((get_comments remote (RpcArg.nat card_json.id)).map
      (fun c => (c.memberCreator.username, c.data.text)))
    card_json.shortUrl

/-- The records issues() yields for one card: one per subtask (the whole
card record is passed as the subtask-fetch argument), each with the
annotations of that subtask, then the record of the card itself. -/
def cardIssues (origin : Origin) (remote : Remote)
    (boardname listname : String) (card : CardRecord) : List TaskRecord :=
  (get_subtasks remote (RpcArg.record card)).map
    (fun st => to_taskwarrior origin st ⟨boardname, listname, some (annotations remote st)⟩)
  ++ [to_taskwarrior origin card ⟨boardname, listname, some (annotations remote card)⟩]

/-- The records issues() yields for one column of one board: the listextra
dictionary is built first, so a column record without a name key raises a
KeyError before any card of that column is processed. -/
def columnIssues (cfg : ServiceConfig) (origin : Origin) (remote : Remote)
    (board : BoardRecord) (lst : ColumnRecord) :
    Except PyError (List TaskRecord) :=
  match lst.name with
  | none => Except.error (PyError.keyError "name")
  | some listname =>
    Except.ok ((get_cards cfg remote lst.id).flatMap
      (cardIssues origin remote board.name listname))

/-- The board-column pairs visited by the nested loops of issues(). -/
def boardColumnPairs (cfg : ServiceConfig) (remote : Remote) :
    List (BoardRecord × ColumnRecord) :=
  (get_boards cfg remote).flatMap
    (fun b => (get_lists cfg remote b.id).map (fun l => (b, l)))

/-- Run the per-column emission over a pair sequence, collecting yielded
records until the first error, as a consumer of the generator observes. -/
def runColumns (cfg : ServiceConfig) (origin : Origin) (remote : Remote) :
    List (BoardRecord × ColumnRecord) → List TaskRecord × Option PyError
  | [] => ([], none)
  | p :: rest =>
    match columnIssues cfg origin remote p.1 p.2 with
    | Except.error e => ([], some e)
    | Except.ok recs =>
      let r := runColumns cfg origin remote rest
      (recs ++ r.1, r.2)

/-- KanboardService.issues: the yielded output records (prefix before any
error) together with the error that interrupts the generator, if any. -/
def issues (cfg : ServiceConfig) (origin : Origin) (remote : Remote) :
    List TaskRecord × Option PyError :=
  runColumns cfg origin remote (boardColumnPairs cfg remote)

/-- A remote task row as stored by the server, for the spec-modelled
getAllTasks endpoint. -/
structure RemoteTask where
  projectId : Nat
  status : Nat
  card : CardRecord
deriving DecidableEq, Repr

/-- Modelled from the spec: the remote getAllTasks endpoint, an external
system.  It returns, in remote order, the cards of the tasks that belong to
the requested project id and carry the requested status code. -/
def get_all_tasks_spec (tasks : List RemoteTask) (pid sid : Nat) :
    List CardRecord :=
  (tasks.filter (fun t => t.projectId == pid && t.status == sid)).map
    (fun t => t.card)

/-- Whether a URL string carries an explicit scheme, for the refinement
reading of the connection-normalization sentence of the spec. -/
def hasScheme (s : String) : Bool :=
  containsSeq "://".data s.data

/-- Modelled from the spec words only, for comparison with normalize_url:
prefix the https scheme exactly when no scheme is given. -/
def normalize_url_spec (s : String) : String :=
  if hasScheme s then s else "https://" ++ s

/- Concrete sample data for witness theorems. -/

/-- A sample label whose name contains a space. -/
def demoLabel : Label := ⟨"In Progress"⟩

/-- A sample card with an absent due date and one label. -/
def demoCard : CardRecord :=
  ⟨100, "Fix bug", "ab12", "https://k/ab12", "https://k/t/100", none, [demoLabel]⟩

/-- A sample subtask of the sample card. -/
def demoSubtask : CardRecord :=
  ⟨101, "Sub", "cd34", "https://k/cd34", "https://k/t/101", some "2024-01-01", []⟩

/-- A sample comment. -/
def demoComment : Comment := ⟨⟨"alice"⟩, ⟨"ok"⟩⟩

/-- A sample board. -/
def demoBoard : BoardRecord := ⟨1, "Proj"⟩

/-- A sample column carrying both a title and a name key. -/
def demoColumn : ColumnRecord := ⟨10, "Doing", some "Doing"⟩

/-- A sample column carrying a title key but no name key. -/
def demoColumnNoName : ColumnRecord := ⟨10, "Doing", none⟩

/-- A sample origin with label import enabled and the default template. -/
def demoOrigin : Origin := ⟨true, DEFAULT_LABEL_TEMPLATE⟩

/-- A sample extra dictionary with precomputed annotations. -/
def demoExtra : Extra := ⟨"Proj", "Doing", some ["note"]⟩

/-- A sample remote: one board, one column, one card with one subtask
(keyed by the whole card record, as the module passes it) and one comment
keyed by the card id. -/
def demoRemote : Remote :=
  ⟨[demoBoard],
   fun _ => demoBoard,
   fun _ => [demoColumn],
   fun _ _ => [demoCard],
   fun a => if a = RpcArg.nat 100 then [demoComment] else [],
   fun a => if a = RpcArg.record demoCard then [demoSubtask] else []⟩

/-- A sample remote whose only column lacks the name key. -/
def demoRemoteNoName : Remote :=
  ⟨[demoBoard],
   fun _ => demoBoard,
   fun _ => [demoColumnNoName],
   fun _ _ => [demoCard],
   fun _ => [],
   fun _ => []⟩

/-- A sample complete configuration. -/
def demoCfg : ServiceConfig :=
  ⟨some "secret", some "secret", some "kb.example.com", none, [], [], some true, none⟩

/-- A sample configuration with include and exclude list filters. -/
def cfgFilters : ServiceConfig :=
  ⟨some "secret", some "secret", some "kb.example.com", none,
   ["Doing", "Done"], ["Done"], some true, none⟩

/-- A configuration whose base_url key is absent. -/
def cfgNoBase : ServiceConfig :=
  ⟨some "secret", some "secret", none, none, [], [], none, none⟩

/-- A configuration whose api_key key is absent. -/
def cfgNoKey : ServiceConfig :=
  ⟨none, none, some "kb.example.com", none, [], [], none, none⟩

/-- A configuration whose base URL carries a non-http scheme. -/
def cfgFtp : ServiceConfig :=
  ⟨some "secret", some "secret", some "ftp://example.com", none, [], [], none, none⟩

/-- A sample constructed client. -/
def demoClient : KanboardClient := ⟨"https://kb.example.com", "jsonrpc", some "secret"⟩

/-- A sample remote task table for the spec-modelled getAllTasks endpoint:
two active tasks of project 10 (in order), one closed task of project 10,
and one active task of another project. -/
def demoTasks : List RemoteTask :=
  [⟨10, 1, demoCard⟩, ⟨10, 1, demoSubtask⟩,
   ⟨10, 0, ⟨102, "Closed", "e", "f", "g", none, []⟩⟩,
   ⟨11, 1, ⟨103, "Other", "h", "i", "j", none, []⟩⟩]

/-- A sample remote implementing the spec-modelled getAllTasks endpoint. -/
def demoRemoteTasks : Remote :=
  ⟨[demoBoard],
   fun _ => demoBoard,
   fun _ => [demoColumn],
   get_all_tasks_spec demoTasks,
   fun _ => [],
   fun _ => []⟩

/- Theorems.  Each claim of the specification is settled by one theorem. -/

/-- C1: for every card or subtask record mapped to an output record,
to_taskwarrior sets project to the board name, priority to the constant M,
due to the parsed due date (an absent due date yields no due date, not an
error), the seven Kanboard identity fields verbatim from the remote record
and the surrounding context, annotations to the precomputed annotation
sequence, and includes a tags entry exactly when import_labels_as_tags is
true. -/
theorem to_taskwarrior_field_contract (origin : Origin) (record : CardRecord)
    (extra : Extra) :
    (to_taskwarrior origin record extra).project = extra.boardname ∧
    (to_taskwarrior origin record extra).priority = "M" ∧
    (to_taskwarrior origin record extra).due = parse_date record.due ∧
    (record.due = none → (to_taskwarrior origin record extra).due = none) ∧
    (to_taskwarrior origin record extra).kanboardcard = record.name ∧
    (to_taskwarrior origin record extra).kanboardcardid = record.id ∧
    (to_taskwarrior origin record extra).kanboardboard = extra.boardname ∧
    (to_taskwarrior origin record extra).kanboardlist = extra.listname ∧
    (to_taskwarrior origin record extra).kanboardshortlink = record.shortLink ∧
    (to_taskwarrior origin record extra).kanboardshorturl = record.shortUrl ∧
    (to_taskwarrior origin record extra).kanboardurl = record.url ∧
    (to_taskwarrior origin record extra).annotations = (extra.annotations).getD [] ∧
    (to_taskwarrior origin record extra).tags.isSome = origin.import_labels_as_tags := by
  cases h : origin.import_labels_as_tags <;>
    simp [to_taskwarrior, baseTw, setTags, h] <;>
    intro h2 <;> simp [h2, parse_date]

/-- C1 witness: the field contract evaluated at the sample origin, card and
extra dictionary. -/
theorem to_taskwarrior_field_contract_check :
    (to_taskwarrior demoOrigin demoCard demoExtra).project = demoExtra.boardname ∧
    (to_taskwarrior demoOrigin demoCard demoExtra).priority = "M" ∧
    (to_taskwarrior demoOrigin demoCard demoExtra).due = parse_date demoCard.due ∧
    (demoCard.due = none → (to_taskwarrior demoOrigin demoCard demoExtra).due = none) ∧
    (to_taskwarrior demoOrigin demoCard demoExtra).kanboardcard = demoCard.name ∧
    (to_taskwarrior demoOrigin demoCard demoExtra).kanboardcardid = demoCard.id ∧
    (to_taskwarrior demoOrigin demoCard demoExtra).kanboardboard = demoExtra.boardname ∧
    (to_taskwarrior demoOrigin demoCard demoExtra).kanboardlist = demoExtra.listname ∧
    (to_taskwarrior demoOrigin demoCard demoExtra).kanboardshortlink = demoCard.shortLink ∧
    (to_taskwarrior demoOrigin demoCard demoExtra).kanboardshorturl = demoCard.shortUrl ∧
    (to_taskwarrior demoOrigin demoCard demoExtra).kanboardurl = demoCard.url ∧
    (to_taskwarrior demoOrigin demoCard demoExtra).annotations = (demoExtra.annotations).getD [] ∧
    (to_taskwarrior demoOrigin demoCard demoExtra).tags.isSome = demoOrigin.import_labels_as_tags :=
  to_taskwarrior_field_contract demoOrigin demoCard demoExtra

/-- C2: for every card reached by the top-level iteration whose subtask
fetch returns N subtasks, issues() emits exactly N plus one records for that
card: one per subtask in subtask order, each carrying the annotations of
that subtask, followed by one record for the card itself; a surviving
column contributes the plain concatenation of these per-card blocks, with
no deduplication. -/
theorem issues_per_card_block (cfg : ServiceConfig) (origin : Origin)
    (remote : Remote) (b : BoardRecord) (l : ColumnRecord) (ln : String)
    (card : CardRecord) (h : l.name = some ln) :
    cardIssues origin remote b.name ln card =
      (get_subtasks remote (RpcArg.record card)).map
        (fun st => to_taskwarrior origin st ⟨b.name, ln, some (annotations remote st)⟩)
      ++ [to_taskwarrior origin card ⟨b.name, ln, some (annotations remote card)⟩] ∧
    (cardIssues origin remote b.name ln card).length =
      (get_subtasks remote (RpcArg.record card)).length + 1 ∧
    columnIssues cfg origin remote b l =
      Except.ok ((get_cards cfg remote l.id).flatMap
        (cardIssues origin remote b.name ln)) := by
  refine ⟨rfl, ?_, ?_⟩
  · simp [cardIssues]
  · simp [columnIssues, h]

/-- C2 witness: at the sample remote the sample card fetches one subtask
and contributes exactly two records. -/
theorem issues_per_card_block_check :
    demoColumn.name = some "Doing" ∧
    (cardIssues demoOrigin demoRemote demoBoard.name "Doing" demoCard =
      (get_subtasks demoRemote (RpcArg.record demoCard)).map
        (fun st => to_taskwarrior demoOrigin st
          ⟨demoBoard.name, "Doing", some (annotations demoRemote st)⟩)
      ++ [to_taskwarrior demoOrigin demoCard
            ⟨demoBoard.name, "Doing", some (annotations demoRemote demoCard)⟩] ∧
    (cardIssues demoOrigin demoRemote demoBoard.name "Doing" demoCard).length =
      (get_subtasks demoRemote (RpcArg.record demoCard)).length + 1 ∧
    columnIssues demoCfg demoOrigin demoRemote demoBoard demoColumn =
      Except.ok ((get_cards demoCfg demoRemote demoColumn.id).flatMap
        (cardIssues demoOrigin demoRemote demoBoard.name "Doing"))) :=
  ⟨rfl, issues_per_card_block demoCfg demoOrigin demoRemote demoBoard demoColumn
    "Doing" demoCard rfl⟩

/-- C5: get_lists filters columns by their title key, but issues() reads the
display name of each surviving column through the name key; a column record
without a name key therefore makes the iteration fail with a key-lookup
error for the key name, before any record of that column is emitted. -/
theorem missing_name_key_fails (cfg : ServiceConfig) (origin : Origin)
    (remote : Remote) (b : BoardRecord) (l : ColumnRecord)
    (h : l.name = none) :
    columnIssues cfg origin remote b l = Except.error (PyError.keyError "name") ∧
    (boardColumnPairs cfg remote = [(b, l)] →
      issues cfg origin remote = ([], some (PyError.keyError "name"))) := by
  constructor
  · simp [columnIssues, h]
  · intro hp
    simp [issues, hp, runColumns, columnIssues, h]

/-- C5 witness: on a remote whose only column has a title key but no name
key, the whole run emits no record and stops with the key error. -/
theorem missing_name_key_fails_check :
    demoColumnNoName.name = none ∧
    demoColumnNoName.title = "Doing" ∧
    columnIssues demoCfg demoOrigin demoRemoteNoName demoBoard demoColumnNoName =
      Except.error (PyError.keyError "name") ∧
    issues demoCfg demoOrigin demoRemoteNoName = ([], some (PyError.keyError "name")) :=
  ⟨rfl, rfl,
   (missing_name_key_fails demoCfg demoOrigin demoRemoteNoName demoBoard
      demoColumnNoName rfl).1,
   (missing_name_key_fails demoCfg demoOrigin demoRemoteNoName demoBoard
      demoColumnNoName rfl).2 (by decide)⟩

/-- C6: the annotations of a card are exactly one formatted annotation per
remote comment of that card id, in comment order, pairing the username of
the commenting member with the comment text and carrying the short URL of
the card as contextual reference; zero comments yield the empty sequence. -/
theorem annotations_per_comment (remote : Remote) (card : CardRecord) :
    annotations remote card =
      (remote.get_all_comments (RpcArg.nat card.id)).map
        (fun c => annotationText c.memberCreator.username c.data.text card.shortUrl) ∧
    (remote.get_all_comments (RpcArg.nat card.id) = [] →
      annotations remote card = []) := by
  constructor
  · simp [annotations, build_annotations, get_comments, List.map_map]
  · intro h
    simp [annotations, build_annotations, get_comments, h]

/-- C6 witness: the sample card carries one comment by alice, producing one
annotation; the sample subtask carries none, producing the empty sequence. -/
theorem annotations_per_comment_check :
    annotations demoRemote demoCard =
      (demoRemote.get_all_comments (RpcArg.nat demoCard.id)).map
        (fun c => annotationText c.memberCreator.username c.data.text demoCard.shortUrl) ∧
    annotations demoRemote demoCard = ["@alice - ok - https://k/ab12"] ∧
    demoRemote.get_all_comments (RpcArg.nat demoSubtask.id) = [] ∧
    annotations demoRemote demoSubtask = [] :=
  ⟨(annotations_per_comment demoRemote demoCard).1, by decide, by decide,
   (annotations_per_comment demoRemote demoSubtask).2 (by decide)⟩

/-- C10: issues() passes the entire card record, not the id field, as the
argument of the subtask fetch, and get_subtasks forwards that argument
verbatim as the task_id of the remote call; the comment fetch instead
extracts and passes the id of the card.  At the sample remote the two
argument shapes are observably different. -/
theorem subtask_fetch_gets_record (origin : Origin) (remote : Remote)
    (boardname listname : String) (card : CardRecord) (a : RpcArg) :
    get_subtasks remote a = remote.get_all_subtasks a ∧
    get_comments remote a = remote.get_all_comments a ∧
    cardIssues origin remote boardname listname card =
      (remote.get_all_subtasks (RpcArg.record card)).map
        (fun st => to_taskwarrior origin st ⟨boardname, listname, some (annotations remote st)⟩)
      ++ [to_taskwarrior origin card ⟨boardname, listname, some (annotations remote card)⟩] ∧
    annotations remote card =
      build_annotations
        ((remote.get_all_comments (RpcArg.nat card.id)).map
          (fun c => (c.memberCreator.username, c.data.text)))
        card.shortUrl ∧
    get_subtasks demoRemote (RpcArg.record demoCard) = [demoSubtask] ∧
    get_subtasks demoRemote (RpcArg.nat demoCard.id) = [] :=
  ⟨rfl, rfl, rfl, rfl, by decide, by decide⟩

/-- C3: get_lists applies the include filter first (keeping exactly the
columns whose title is in the include set, by string equality) and the
exclude filter second (dropping the columns whose title is in the exclude
set); each filter is skipped when its configuration is empty, the result is
a sublist of the remote columns (remote order preserved), and membership in
the result is exactly intersection with the include set followed by
difference with the exclude set. -/
theorem get_lists_filter_contract (cfg : ServiceConfig) (remote : Remote)
    (bid : Nat) :
    List.Sublist (get_lists cfg remote bid) (remote.get_columns bid) ∧
    (∀ l, l ∈ get_lists cfg remote bid ↔
      (l ∈ remote.get_columns bid ∧
       (cfg.include_lists ≠ [] → l.title ∈ cfg.include_lists) ∧
       (cfg.exclude_lists ≠ [] → l.title ∉ cfg.exclude_lists))) ∧
    (cfg.include_lists = [] → cfg.exclude_lists = [] →
      get_lists cfg remote bid = remote.get_columns bid) := by
  refine ⟨?_, fun l => ?_, fun a b => by simp [get_lists, a, b]⟩
  · by_cases h1 : cfg.include_lists = [] <;> by_cases h2 : cfg.exclude_lists = [] <;>
      simp [get_lists, h1, h2]
  · by_cases h1 : cfg.include_lists = [] <;> by_cases h2 : cfg.exclude_lists = [] <;>
      simp [get_lists, h1, h2, List.mem_filter, and_assoc] <;> tauto

/-- C3 witness: with include set Doing, Done and exclude set Done, the
sample column titled Doing survives the two filters in order. -/
theorem get_lists_filter_contract_check :
    List.Sublist (get_lists cfgFilters demoRemote 1) (demoRemote.get_columns 1) ∧
    (∀ l, l ∈ get_lists cfgFilters demoRemote 1 ↔
      (l ∈ demoRemote.get_columns 1 ∧
       (cfgFilters.include_lists ≠ [] → l.title ∈ cfgFilters.include_lists) ∧
       (cfgFilters.exclude_lists ≠ [] → l.title ∉ cfgFilters.exclude_lists))) ∧
    get_lists cfgFilters demoRemote 1 = [demoColumn] := by
  have h := get_lists_filter_contract cfgFilters demoRemote 1
  exact ⟨h.1, h.2.1, by decide⟩

/-- C7: with import_labels_as_tags enabled, the tags of the output record
are exactly one rendered tag per label of the card, in label order, each
obtained by rendering the configured template with the label name bound to
the label variable and the in-progress output record as context; under the
default template a label named In Progress renders to In_Progress for every
context. -/
theorem tags_render_contract (origin : Origin) (record : CardRecord)
    (extra : Extra) (h : origin.import_labels_as_tags = true) :
    (to_taskwarrior origin record extra).tags =
      some (record.labels.map
        (fun l => renderTemplate origin.label_template
          (twContext (baseTw record extra)) l.name)) ∧
    (∀ ctx, renderTemplate DEFAULT_LABEL_TEMPLATE ctx "In Progress" = "In_Progress") := by
  constructor
  · simp [to_taskwarrior, h, setTags, get_tags]
  · intro ctx
    simp [renderTemplate, DEFAULT_LABEL_TEMPLATE, renderLoop, renderLoop.splitAtClose,
      evalExpr, evalVar, splitOnChar, trimChars, applyFilter, replaceChars,
      replaceFuel, unquote, beginsWith, lcurl, rcurl, pipeChar, commaChar,
      squoteChar, spaceChar]

/-- C7 witness: at the sample origin (default template, import enabled) the
sample card with one label named In Progress gets exactly the tag list
containing In_Progress. -/
theorem tags_render_contract_check :
    demoOrigin.import_labels_as_tags = true ∧
    (to_taskwarrior demoOrigin demoCard demoExtra).tags =
      some (demoCard.labels.map
        (fun l => renderTemplate demoOrigin.label_template
          (twContext (baseTw demoCard demoExtra)) l.name)) ∧
    (to_taskwarrior demoOrigin demoCard demoExtra).tags = some ["In_Progress"] := by
  refine ⟨rfl, (tags_render_contract demoOrigin demoCard demoExtra rfl).1, ?_⟩
  rw [(tags_render_contract demoOrigin demoCard demoExtra rfl).1]
  decide

/-- C8: the card enumeration asks the remote for the tasks of the given
list id with the hard-coded status code 1 (active), unaffected by any
configuration value, and returns them in remote order; against the
spec-modelled endpoint every returned card stems from a task of that column
with the active status. -/
theorem get_cards_active_contract (cfg cfg2 : ServiceConfig) (remote : Remote)
    (tasks : List RemoteTask) (list_id : Nat) :
    get_cards cfg remote list_id = remote.get_all_tasks list_id 1 ∧
    get_cards cfg remote list_id = get_cards cfg2 remote list_id ∧
    (remote.get_all_tasks = get_all_tasks_spec tasks →
      get_cards cfg remote list_id =
        (tasks.filter (fun t => t.projectId == list_id && t.status == 1)).map
          (fun t => t.card) ∧
      ∀ c ∈ get_cards cfg remote list_id,
        ∃ t, t ∈ tasks ∧ t.card = c ∧ t.status = 1 ∧ t.projectId = list_id) := by
  refine ⟨rfl, rfl, fun h => ⟨by simp [get_cards, h, get_all_tasks_spec], ?_⟩⟩
  intro c hc
  simp only [get_cards, h, get_all_tasks_spec, List.mem_map, List.mem_filter,
    Bool.and_eq_true, beq_iff_eq] at hc
  obtain ⟨t, ⟨ht, hp, hs⟩, rfl⟩ := hc
  exact ⟨t, ht, rfl, hs, hp⟩

/-- C8 witness: on the spec-modelled task table the enumeration of list 10
returns exactly the two active cards of that column, in remote order, for
two different configurations. -/
theorem get_cards_active_contract_check :
    get_cards demoCfg demoRemoteTasks 10 = demoRemoteTasks.get_all_tasks 10 1 ∧
    get_cards demoCfg demoRemoteTasks 10 = get_cards cfgFilters demoRemoteTasks 10 ∧
    get_cards demoCfg demoRemoteTasks 10 = [demoCard, demoSubtask] ∧
    (∀ c ∈ get_cards demoCfg demoRemoteTasks 10,
      ∃ t, t ∈ demoTasks ∧ t.card = c ∧ t.status = 1 ∧ t.projectId = 10) := by
  have h := get_cards_active_contract demoCfg cfgFilters demoRemoteTasks demoTasks 10
  refine ⟨h.1, h.2.1, ?_, (h.2.2 rfl).2⟩
  decide

/-- C4 counterexample: a configuration carrying an api_key but no base URL
passes validate_config without any configuration error, so no fatal
configuration error is surfaced for the missing base URL; the later connect
call fails with a Python attribute error (None has no startswith), which is
a crash, not a raised configuration error. -/
theorem validate_config_misses_base_url :
    cfgNoBase.base_url = none ∧
    validate_config cfgNoBase "mytarget" = Except.ok () ∧
    connect cfgNoBase none = Except.error PyError.attributeError :=
  ⟨rfl, rfl, rfl⟩

/-- C4 amended: an absent api_key key is reported by validate_config as a
fatal configuration error (and a present one passes validation regardless
of the base URL); an absent base URL is not caught by validation and
instead makes connect fail with an attribute error, still before any client
is constructed, so in neither case does a remote fetch proceed. -/
theorem config_validation_behavior (cfg : ServiceConfig) (t : String)
    (conn : Option KanboardClient) :
    (cfg.api_key = none →
      validate_config cfg t = Except.error (dieMessage t "api_key")) ∧
    (cfg.api_key.isSome = true → validate_config cfg t = Except.ok ()) ∧
    (cfg.base_url = none → connect cfg conn = Except.error PyError.attributeError) := by
  refine ⟨fun h => ?_, fun h => ?_, fun h => ?_⟩
  · simp [validate_config, h]
  · simp [validate_config, h]
  · simp [connect, h]

/-- C4 amended witness: the behaviour evaluated at a configuration missing
the api_key and at one missing the base URL. -/
theorem config_validation_behavior_check :
    cfgNoKey.api_key = none ∧
    validate_config cfgNoKey "mytarget" = Except.error (dieMessage "mytarget" "api_key") ∧
    cfgNoBase.base_url = none ∧
    connect cfgNoBase none = Except.error PyError.attributeError :=
  ⟨rfl, (config_validation_behavior cfgNoKey "mytarget" none).1 rfl,
   rfl, (config_validation_behavior cfgNoBase "mytarget" none).2.2 rfl⟩

/-- C9 counterexample: the base URL ftp://example.com already carries a
scheme, yet connect does not use it unchanged: the code tests only whether
the string starts with the literal http, so this URL is prefixed with
https:// as well, contradicting the claim that a URL with a scheme is used
unchanged. -/
theorem scheme_normalization_mismatch :
    hasScheme "ftp://example.com" = true ∧
    normalize_url "ftp://example.com" = "https://ftp://example.com" ∧
    normalize_url_spec "ftp://example.com" = "ftp://example.com" ∧
    cfgFtp.base_url = some "ftp://example.com" ∧
    connect cfgFtp none =
      Except.ok ⟨"https://ftp://example.com", "jsonrpc", some "secret"⟩ :=
  ⟨by decide, by decide, by decide, rfl, rfl⟩

/-- C9 amended: for every configured base URL the lazily created client is
bound to the URL normalized by the startswith test: the URL is used
unchanged exactly when it starts with the literal http, and is prefixed
with https:// otherwise (regardless of whether it already carries some
other scheme); an existing client is reused unchanged, so the client is
created at most once per run. -/
theorem connect_normalization_behavior (cfg : ServiceConfig) (b : String)
    (c : KanboardClient) (h : cfg.base_url = some b) :
    connect cfg none = Except.ok ⟨normalize_url b, "jsonrpc", cfg.token⟩ ∧
    connect cfg (some c) = Except.ok c ∧
    (beginsWith "http".data b.data = true → normalize_url b = b) ∧
    (beginsWith "http".data b.data = false →
      normalize_url b = "https://" ++ b) := by
  refine ⟨by simp [connect, h], by simp [connect, h], fun h2 => ?_, fun h2 => ?_⟩
  · simp [normalize_url, h2]
  · simp [normalize_url, h2]

/-- C9 amended witness: the behaviour evaluated at the sample configuration
whose base URL has no scheme, and at the sample client for reuse. -/
theorem connect_normalization_behavior_check :
    demoCfg.base_url = some "kb.example.com" ∧
    connect demoCfg none =
      Except.ok ⟨normalize_url "kb.example.com", "jsonrpc", demoCfg.token⟩ ∧
    connect demoCfg (some demoClient) = Except.ok demoClient ∧
    normalize_url "kb.example.com" = "https://kb.example.com" :=
  ⟨rfl,
   (connect_normalization_behavior demoCfg "kb.example.com" demoClient rfl).1,
   (connect_normalization_behavior demoCfg "kb.example.com" demoClient rfl).2.1,
   (connect_normalization_behavior demoCfg "kb.example.com" demoClient rfl).2.2.2
     (by decide)⟩
